import Mathlib

/-!
Shallow embedding of the slack-studio integration adapter (src/resolver.js).

The JavaScript module has three layers:
* `BrowserConfig` — an in-memory key/value map (a JS `Map`) with `init`,
  `get`, `set`; `init` merges an explicit object first, then fills gaps
  from a persisted store.
* Configuration lookups `getApiKey` / `getChannel` — consult an optional
  integration-manager capability first and fall back to `BrowserConfig`.
* The adapter operations `send` / `receive` (the latter delegating to
  `waitForReply`), built on `StandardHeaders` and `handleAxiosRequest`.

The embedding makes the JavaScript environment explicit: the optional
integration manager and the config map form an `Env`; the outcome of the
one axios call an operation makes is an `AxiosOutcome` oracle passed in.
Operations return not just their JS return value but a trace recording
whether a network request was issued (and its contents), whether the fixed
delay ran, and which diagnostics were logged, so that the specification's
"no network call" and "logged" clauses are statable.

JS truthiness on the string-valued settings is modelled by `jsTruthy`:
`undefined`/`null` is `none`, and the empty string is the only falsy
string.
-/

namespace SlackStudio

/-- JS truthiness of an optional string value: `undefined`/`null` (`none`)
and the empty string are falsy, every other string is truthy. -/
def jsTruthy (o : Option String) : Bool :=
  match o with
  | none => false
  | some s => !(s = "")

/-- Lookup in an association list, modelling `Map.prototype.get`. -/
def mapGet (m : List (String × String)) (k : String) : Option String :=
  match m with
  | [] => none
  | (k2, v) :: rest => if k2 = k then some v else mapGet rest k

/-- Update/insert in an association list, modelling `Map.prototype.set`:
the first binding of the key is overwritten in place, otherwise the new
binding is appended. -/
def mapSet (m : List (String × String)) (k v : String) : List (String × String) :=
  match m with
  | [] => [(k, v)]
  | (k2, v2) :: rest => if k2 = k then (k2, v) :: rest else (k2, v2) :: mapSet rest k v

/-- Membership test, modelling `Map.prototype.has`. -/
def mapHas (m : List (String × String)) (k : String) : Bool :=
  (mapGet m k).isSome

/-- `entries.forEach(([k,v]) => map.set(k,v))`: set every entry in order. -/
def setAll (st : List (String × String)) (entries : List (String × String)) :
    List (String × String) :=
  entries.foldl (fun m kv => mapSet m kv.1 kv.2) st

/-- The persisted-configuration pass of `BrowserConfig.init`: set an entry
only when its key is not already present. -/
def addMissing (st : List (String × String)) (entries : List (String × String)) :
    List (String × String) :=
  entries.foldl (fun m kv => if mapHas m kv.1 then m else mapSet m kv.1 kv.2) st

namespace BrowserConfig

/-- `BrowserConfig.init(configObj)` acting on the current map `st`.
`configObj = none` models an absent/non-object argument, and
`savedConfig = none` models missing `localStorage`, an absent saved item,
or a saved item whose JSON parse failed (that failure is caught and
ignored, leaving the map as after the first pass). -/
def init (st : List (String × String)) (configObj : Option (List (String × String)))
    (savedConfig : Option (List (String × String))) : List (String × String) :=
  let st1 :=
    match configObj with
    | some entries => setAll st entries
    | none => st
  match savedConfig with
  | some parsed => addMissing st1 parsed
  | none => st1

/-- `BrowserConfig.get(key)`. -/
def get (m : List (String × String)) (k : String) : Option String :=
  mapGet m k

/-- `BrowserConfig.set(key, value)`: the in-memory update (the persistence
of the whole map to `localStorage`, when available, stores exactly the
returned map). -/
def set (m : List (String × String)) (k v : String) : List (String × String) :=
  mapSet m k v

end BrowserConfig

/-- The integration-manager object `al_integmanager`: its
`getIntegrationConfig` member may itself be absent (the code guards with
`al_integmanager && al_integmanager.getIntegrationConfig`). -/
structure IntegMgr where
  getIntegrationConfig : Option (String → String → Option String)

/-- The module-level environment a lookup sees: the (optional) loaded
integration manager and the `BrowserConfig` map. -/
structure Env where
  integmgr : Option IntegMgr
  config : List (String × String)

/-- `getApiKey()`: ask the integration manager for `('slack','apiKey')`
first; a truthy answer is returned, otherwise fall back to
`BrowserConfig.get('apiKey')`. -/
def getApiKey (env : Env) : Option String :=
  match env.integmgr with
  | some mgr =>
    match mgr.getIntegrationConfig with
    | some f =>
      let key := f "slack" "apiKey"
      if jsTruthy key then key else BrowserConfig.get env.config "apiKey"
    | none => BrowserConfig.get env.config "apiKey"
  | none => BrowserConfig.get env.config "apiKey"

/-- `getChannel()`: same two-tier lookup for `('slack','channel')`. -/
def getChannel (env : Env) : Option String :=
  match env.integmgr with
  | some mgr =>
    match mgr.getIntegrationConfig with
    | some f =>
      let channel := f "slack" "channel"
      if jsTruthy channel then channel else BrowserConfig.get env.config "channel"
    | none => BrowserConfig.get env.config "channel"
  | none => BrowserConfig.get env.config "channel"

/-- `SlackBaseUrl`. -/
def SlackBaseUrl : String := "https://slack.com/api"

/-- `getUrl(endpoint)`. -/
def getUrl (endpoint : String) : String :=
  SlackBaseUrl ++ "/" ++ endpoint

/-- `StandardHeaders()`: returns the header list together with the
diagnostics logged while building it (`console.error` on a missing key). -/
def StandardHeaders (env : Env) : List (String × String) × List String :=
  match getApiKey env with
  | none => ([("Content-Type", "application/json")], ["Slack API key not configured"])
  | some apiKey =>
    if apiKey = "" then
      ([("Content-Type", "application/json")], ["Slack API key not configured"])
    else
      ([("Authorization", "Bearer " ++ apiKey), ("Content-Type", "application/json")], [])

/-- A message object inside a `conversations.replies` response; its `text`
property may be absent. -/
structure Message where
  text : Option String
deriving DecidableEq, Repr

/-- The response body (`response.data`) as far as the adapter inspects it:
an `error` property, a `ts` property and a `messages` array, each possibly
absent. -/
structure RespBody where
  error : Option String
  ts : Option String
  messages : Option (List Message)
deriving DecidableEq, Repr

/-- The outcome of the single axios call an operation makes: a resolved
response carrying `response.data`, or a rejection that carries a server
response (`error.response`), was sent without any response
(`error.request`), or failed before sending (`error.message`). -/
inductive AxiosOutcome where
  | success (data : RespBody)
  | errorWithResponse (status : Nat) (statusText : String)
  | errorNoResponse
  | errorSetup (message : String)
deriving DecidableEq, Repr

/-- `handleAxiosRequest`: a resolved call returns `response.data`
unchanged; each rejection case is normalized into an object with an
`error` string — status line, generic no-response text, or the underlying
error message. -/
def handleAxiosRequest (outcome : AxiosOutcome) : RespBody :=
  match outcome with
  | .success data => data
  | .errorWithResponse status statusText =>
    { error := some ("HTTP error! status: " ++ toString status ++ " " ++ statusText),
      ts := none, messages := none }
  | .errorNoResponse =>
    { error := some "No response received from server", ts := none, messages := none }
  | .errorSetup message =>
    { error := some message, ts := none, messages := none }

/-- The JSON body `{channel, text}` of a posted message. -/
structure MessageBody where
  channel : String
  text : String
deriving DecidableEq, Repr

/-- A network request as the adapter constructs it: URL, method, headers,
and the JSON body for a POST (`none` for a GET). -/
structure Request where
  url : String
  method : String
  headers : List (String × String)
  body : Option MessageBody
deriving DecidableEq, Repr

/-- What `send` returns: an object whose `error` property the caller
checks, or the value of `result.ts` (possibly `undefined`). -/
inductive SendResult where
  | errObj (resp : RespBody)
  | tsVal (ts : Option String)
deriving DecidableEq, Repr

/-- The observable behaviour of one `send` call: its return value, the
request it issued (if any), and the diagnostics logged. -/
structure SendOutput where
  result : SendResult
  request : Option Request
  logs : List String
deriving DecidableEq, Repr

/-- `send(channel, message)`: resolves the target channel from
configuration (the `channel` parameter is never read); with no resolved
channel it returns the error object without a request; otherwise it POSTs
`{channel, text}` to `chat.postMessage` with `StandardHeaders()`, returns
the response verbatim when its `error` is truthy (after logging), else
returns `result.ts`. -/
def send (env : Env) (channel message : String) (outcome : AxiosOutcome) : SendOutput :=
  let apiUrl := getUrl "chat.postMessage"
  match getChannel env with
  | none =>
    { result := .errObj { error := some "Slack channel not configured", ts := none, messages := none },
      request := none, logs := [] }
  | some slackChannel =>
    if slackChannel = "" then
      { result := .errObj { error := some "Slack channel not configured", ts := none, messages := none },
        request := none, logs := [] }
    else
      let messageBody : MessageBody := { channel := slackChannel, text := message }
      let hdrs := StandardHeaders env
      let result := handleAxiosRequest outcome
      let req : Request := { url := apiUrl, method := "POST", headers := hdrs.1, body := some messageBody }
      if jsTruthy result.error then
        { result := .errObj result, request := some req,
          logs := hdrs.2 ++ ["Failed to send Slack message: " ++ result.error.getD ""] }
      else
        { result := .tsVal result.ts, request := some req, logs := hdrs.2 }

/-- What `waitForReply`/`receive` returns: an object with an `error`
property, or a plain string value (the reply text, possibly `undefined`,
or the sentinel). -/
inductive ReceiveResult where
  | errObj (resp : RespBody)
  | strVal (s : Option String)
deriving DecidableEq, Repr

/-- The observable behaviour of one `receive` call: its return value, the
request it issued (if any), whether the fixed 10-second delay ran before
the request, and the diagnostics logged. -/
structure ReceiveOutput where
  result : ReceiveResult
  request : Option Request
  delayed : Bool
  logs : List String
deriving DecidableEq, Repr

/-- `waitForReply(thread)`: with no resolved channel, returns the error
object at once (no delay, no request); otherwise waits the fixed delay,
GETs `conversations.replies`, passes an error response through verbatim,
and else returns the last message text when at least two messages exist,
or the literal string `"no response"`. -/
def waitForReply (env : Env) (thread : String) (outcome : AxiosOutcome) : ReceiveOutput :=
  match getChannel env with
  | none =>
    { result := .errObj { error := some "Channel not configured", ts := none, messages := none },
      request := none, delayed := false, logs := [] }
  | some channel =>
    if channel = "" then
      { result := .errObj { error := some "Channel not configured", ts := none, messages := none },
        request := none, delayed := false, logs := [] }
    else
      let apiUrl := getUrl ("conversations.replies?ts=" ++ thread ++ "&channel=" ++ channel)
      let hdrs := StandardHeaders env
      let resp := handleAxiosRequest outcome
      let req : Request := { url := apiUrl, method := "GET", headers := hdrs.1, body := none }
      if jsTruthy resp.error then
        { result := .errObj resp, request := some req, delayed := true, logs := hdrs.2 }
      else
        match resp.messages with
        | some msgs =>
          if msgs.length ≥ 2 then
            { result := .strVal (msgs.getLast?.bind Message.text), request := some req,
              delayed := true, logs := hdrs.2 }
          else
            { result := .strVal (some "no response"), request := some req,
              delayed := true, logs := hdrs.2 }
        | none =>
          { result := .strVal (some "no response"), request := some req,
            delayed := true, logs := hdrs.2 }

/-- `receive(threadId)`: delegates to `waitForReply`. -/
def receive (env : Env) (threadId : String) (outcome : AxiosOutcome) : ReceiveOutput :=
  waitForReply env threadId outcome

/-- C1: whenever the configured channel resolves to an empty or absent
value, `send` returns the `{error: 'Slack channel not configured'}` object
and issues no network request (and logs nothing). -/
theorem send_unresolved_channel_no_request (env : Env) (channel message : String)
    (outcome : AxiosOutcome) (h : jsTruthy (getChannel env) = false) :
    send env channel message outcome =
      { result := .errObj { error := some "Slack channel not configured", ts := none,
                            messages := none },
        request := none, logs := [] } := by
  cases hc : getChannel env with
  | none => simp [send, hc]
  | some s =>
    rw [hc] at h
    simp [jsTruthy] at h
    simp [send, hc, h]

/-- Witness for C1 at a concrete environment with no channel configured. -/
theorem send_unresolved_channel_no_request_witness :
    jsTruthy (getChannel { integmgr := none, config := [("apiKey", "K")] }) = false ∧
    send { integmgr := none, config := [("apiKey", "K")] } "C42" "hello" .errorNoResponse =
      { result := .errObj { error := some "Slack channel not configured", ts := none,
                            messages := none },
        request := none, logs := [] } :=
  ⟨by decide,
   send_unresolved_channel_no_request { integmgr := none, config := [("apiKey", "K")] }
     "C42" "hello" .errorNoResponse (by decide)⟩

/-- C3: `handleAxiosRequest` normalizes the three rejection cases — a
server response with a non-success status yields the status line (429 with
"Too Many Requests" yields exactly that message), a request without a
response yields the generic message, and a setup failure yields the
underlying error message. -/
theorem handleAxiosRequest_error_cases (status : Nat) (statusText message : String) :
    handleAxiosRequest (.errorWithResponse status statusText) =
      { error := some ("HTTP error! status: " ++ toString status ++ " " ++ statusText),
        ts := none, messages := none } ∧
    handleAxiosRequest (.errorWithResponse 429 "Too Many Requests") =
      { error := some "HTTP error! status: 429 Too Many Requests",
        ts := none, messages := none } ∧
    handleAxiosRequest .errorNoResponse =
      { error := some "No response received from server", ts := none, messages := none } ∧
    handleAxiosRequest (.errorSetup message) =
      { error := some message, ts := none, messages := none } :=
  ⟨rfl, by decide, rfl, rfl⟩

/-- C5: whenever the configured channel resolves to an empty or absent
value, `receive` returns the `{error: 'Channel not configured'}` object
with no delay and no network request. -/
theorem receive_unresolved_channel_immediate (env : Env) (threadId : String)
    (outcome : AxiosOutcome) (h : jsTruthy (getChannel env) = false) :
    receive env threadId outcome =
      { result := .errObj { error := some "Channel not configured", ts := none, messages := none },
        request := none, delayed := false, logs := [] } := by
  cases hc : getChannel env with
  | none => simp [receive, waitForReply, hc]
  | some s =>
    rw [hc] at h
    simp [jsTruthy] at h
    simp [receive, waitForReply, hc, h]

/-- Witness for C5 at a concrete environment whose channel is the empty
string. -/
theorem receive_unresolved_channel_immediate_witness :
    jsTruthy (getChannel { integmgr := none, config := [("channel", "")] }) = false ∧
    receive { integmgr := none, config := [("channel", "")] } "T1" .errorNoResponse =
      { result := .errObj { error := some "Channel not configured", ts := none, messages := none },
        request := none, delayed := false, logs := [] } :=
  ⟨by decide,
   receive_unresolved_channel_immediate { integmgr := none, config := [("channel", "")] }
     "T1" .errorNoResponse (by decide)⟩

/-- C8: the `channel` argument of `send` has no effect — two calls in the
same environment differing only in that argument produce identical
behaviour (result, issued request and logs). -/
theorem send_ignores_channel_param (env : Env) (ch1 ch2 message : String)
    (outcome : AxiosOutcome) :
    send env ch1 message outcome = send env ch2 message outcome := rfl

/-- C10: on a resolved channel and a resolved HTTP call whose body has a
falsy `error` and no `ts` field, `send` returns the undefined value
(`tsVal none`), not an error descriptor. -/
theorem send_success_missing_ts_returns_undefined (env : Env) (channel message : String)
    (data : RespBody) (hch : jsTruthy (getChannel env) = true)
    (herr : jsTruthy data.error = false) (hts : data.ts = none) :
    (send env channel message (.success data)).result = .tsVal none := by
  cases hc : getChannel env with
  | none => rw [hc] at hch; simp [jsTruthy] at hch
  | some s =>
    rw [hc] at hch
    simp [jsTruthy] at hch
    simp [send, hc, hch, handleAxiosRequest, herr, hts]

/-- Witness for C10 at a concrete environment and a success body that has
neither an `error` nor a `ts` field. -/
theorem send_success_missing_ts_returns_undefined_witness :
    (send { integmgr := none, config := [("channel", "C")] } "X" "hi"
        (.success { error := none, ts := none, messages := none })).result = .tsVal none :=
  send_success_missing_ts_returns_undefined { integmgr := none, config := [("channel", "C")] }
    "X" "hi" { error := none, ts := none, messages := none } (by decide) (by decide) rfl

/-- Counterexample to C2 as stated: with a channel configured, an HTTP
POST that succeeds but whose response body carries a truthy `error` field
makes `send` return that body as an error object, not the body's `ts`
value. -/
theorem send_success_with_error_body_not_ts :
    jsTruthy (getChannel { integmgr := none, config := [("channel", "C")] }) = true ∧
    (send { integmgr := none, config := [("channel", "C")] } "X" "hi"
        (.success { error := some "channel_not_found", ts := some "123.45",
                    messages := none })).result ≠
      .tsVal (some "123.45") := by
  constructor
  · decide
  · decide

/-- C2 (amended): on a resolved channel, a successful HTTP POST whose
response body has a falsy `error` field makes `send` return exactly the
body's `ts` value; in particular the body `{ts: "123.45"}` yields
`"123.45"`. -/
theorem send_success_returns_ts (env : Env) (channel message : String) (data : RespBody)
    (hch : jsTruthy (getChannel env) = true) (herr : jsTruthy data.error = false) :
    (send env channel message (.success data)).result = .tsVal data.ts := by
  cases hc : getChannel env with
  | none => rw [hc] at hch; simp [jsTruthy] at hch
  | some s =>
    rw [hc] at hch
    simp [jsTruthy] at hch
    simp [send, hc, hch, handleAxiosRequest, herr]

/-- Witness for the amended C2 at the specification's concrete example
response `{ts: "123.45"}`. -/
theorem send_success_returns_ts_witness :
    (send { integmgr := none, config := [("channel", "C")] } "X" "hi"
        (.success { error := none, ts := some "123.45", messages := none })).result =
      .tsVal (some "123.45") :=
  send_success_returns_ts { integmgr := none, config := [("channel", "C")] } "X" "hi"
    { error := none, ts := some "123.45", messages := none } (by decide) (by decide)

/-- C4: on a resolved channel and a successful GET whose body has a falsy
`error` field and a `messages` list, `receive` returns the `text` of the
last message when the list has at least two entries, and the literal
string `"no response"` when it has fewer than two. -/
theorem receive_reply_extraction (env : Env) (threadId : String) (data : RespBody)
    (msgs : List Message) (hch : jsTruthy (getChannel env) = true)
    (herr : jsTruthy data.error = false) (hmsgs : data.messages = some msgs) :
    (2 ≤ msgs.length → ∀ last, msgs.getLast? = some last →
      (receive env threadId (.success data)).result = .strVal last.text) ∧
    (msgs.length < 2 →
      (receive env threadId (.success data)).result = .strVal (some "no response")) := by
  cases hc : getChannel env with
  | none => rw [hc] at hch; simp [jsTruthy] at hch
  | some s =>
    rw [hc] at hch
    simp [jsTruthy] at hch
    constructor
    · intro hlen last hlast
      simp [receive, waitForReply, hc, hch, handleAxiosRequest, herr, hmsgs, hlen, hlast]
    · intro hlen
      simp [receive, waitForReply, hc, hch, handleAxiosRequest, herr, hmsgs,
        Nat.not_le.mpr hlen]

/-- Witness for C4 at the specification's three-message example, whose
last entry has text `"c"`. -/
theorem receive_reply_extraction_witness :
    (receive { integmgr := none, config := [("channel", "C")] } "T1"
        (.success { error := none, ts := none,
                    messages := some [{ text := some "a" }, { text := some "b" },
                                      { text := some "c" }] })).result =
      .strVal (some "c") :=
  (receive_reply_extraction { integmgr := none, config := [("channel", "C")] } "T1"
      { error := none, ts := none,
        messages := some [{ text := some "a" }, { text := some "b" }, { text := some "c" }] }
      [{ text := some "a" }, { text := some "b" }, { text := some "c" }]
      (by decide) (by decide) rfl).1 (by decide) { text := some "c" } (by decide)

/-- C7: both lookups consult the integration manager first — a truthy
answer is returned regardless of the local store — and fall back to the
local `BrowserConfig.get` exactly when the manager is absent, lacks the
capability, or answers with a falsy value. -/
theorem two_tier_lookup (f : String → String → Option String) (cfg : List (String × String)) :
    (jsTruthy (f "slack" "apiKey") = true →
      ∀ cfg2, getApiKey { integmgr := some { getIntegrationConfig := some f }, config := cfg2 } =
        f "slack" "apiKey") ∧
    (jsTruthy (f "slack" "apiKey") = false →
      getApiKey { integmgr := some { getIntegrationConfig := some f }, config := cfg } =
        BrowserConfig.get cfg "apiKey") ∧
    getApiKey { integmgr := none, config := cfg } = BrowserConfig.get cfg "apiKey" ∧
    getApiKey { integmgr := some { getIntegrationConfig := none }, config := cfg } =
      BrowserConfig.get cfg "apiKey" ∧
    (jsTruthy (f "slack" "channel") = true →
      ∀ cfg2, getChannel { integmgr := some { getIntegrationConfig := some f }, config := cfg2 } =
        f "slack" "channel") ∧
    (jsTruthy (f "slack" "channel") = false →
      getChannel { integmgr := some { getIntegrationConfig := some f }, config := cfg } =
        BrowserConfig.get cfg "channel") ∧
    getChannel { integmgr := none, config := cfg } = BrowserConfig.get cfg "channel" ∧
    getChannel { integmgr := some { getIntegrationConfig := none }, config := cfg } =
      BrowserConfig.get cfg "channel" := by
  refine ⟨?_, ?_, rfl, rfl, ?_, ?_, rfl, rfl⟩ <;> intro h
  · intro cfg2
    simp [getApiKey, h]
  · simp [getApiKey, h]
  · intro cfg2
    simp [getChannel, h]
  · simp [getChannel, h]

/-- Witness for C7: a truthy integration-manager answer shadows a
conflicting local store entry. -/
theorem two_tier_lookup_witness :
    getApiKey { integmgr := some { getIntegrationConfig := some (fun _ _ => some "MGR") },
                config := [("apiKey", "LOCAL")] } = some "MGR" :=
  (two_tier_lookup (fun _ _ => some "MGR") [("apiKey", "LOCAL")]).1 (by decide)
    [("apiKey", "LOCAL")]

/-- C9: `StandardHeaders` yields exactly the Content-Type header (logging
the missing key) when no API key resolves, and adds the Bearer
Authorization header (logging nothing) when one does; with a resolved
channel but no key, `send` still issues its request, without an
Authorization header, and the missing-key diagnostic is logged. -/
theorem standard_headers_spec (env : Env) :
    (jsTruthy (getApiKey env) = false →
      StandardHeaders env =
        ([("Content-Type", "application/json")], ["Slack API key not configured"])) ∧
    (∀ k, getApiKey env = some k → jsTruthy (some k) = true →
      StandardHeaders env =
        ([("Authorization", "Bearer " ++ k), ("Content-Type", "application/json")], [])) ∧
    (∀ channel message outcome,
      jsTruthy (getChannel env) = true → jsTruthy (getApiKey env) = false →
      (∃ req, (send env channel message outcome).request = some req ∧
        req.headers = [("Content-Type", "application/json")]) ∧
      "Slack API key not configured" ∈ (send env channel message outcome).logs) := by
  have hdr1 : jsTruthy (getApiKey env) = false →
      StandardHeaders env =
        ([("Content-Type", "application/json")], ["Slack API key not configured"]) := by
    intro h
    cases hk : getApiKey env with
    | none => simp [StandardHeaders, hk]
    | some k =>
      rw [hk] at h
      simp [jsTruthy] at h
      simp [StandardHeaders, hk, h]
  refine ⟨hdr1, ?_, ?_⟩
  · intro k hk ht
    simp [jsTruthy] at ht
    simp [StandardHeaders, hk, ht]
  · intro channel message outcome hch hkey
    cases hc : getChannel env with
    | none => rw [hc] at hch; simp [jsTruthy] at hch
    | some s =>
      rw [hc] at hch
      simp [jsTruthy] at hch
      have hreq : (send env channel message outcome).request =
          some { url := getUrl "chat.postMessage", method := "POST",
                 headers := [("Content-Type", "application/json")],
                 body := some { channel := s, text := message } } := by
        by_cases he : jsTruthy (handleAxiosRequest outcome).error = true
        · simp [send, hc, hch, he, hdr1 hkey]
        · simp at he
          simp [send, hc, hch, he, hdr1 hkey]
      have hlog : "Slack API key not configured" ∈ (send env channel message outcome).logs := by
        by_cases he : jsTruthy (handleAxiosRequest outcome).error = true
        · simp [send, hc, hch, he, hdr1 hkey]
        · simp at he
          simp [send, hc, hch, he, hdr1 hkey]
      exact ⟨⟨_, hreq, rfl⟩, hlog⟩

/-- Witness for C9: with no integration manager and no stored key, `send`
with a configured channel issues a request whose only header is the
Content-Type header, and logs the missing-key diagnostic. -/
theorem standard_headers_spec_witness :
    (∃ req, (send { integmgr := none, config := [("channel", "C")] } "X" "hi"
        (.success { error := none, ts := some "1.2", messages := none })).request = some req ∧
      req.headers = [("Content-Type", "application/json")]) ∧
    "Slack API key not configured" ∈
      (send { integmgr := none, config := [("channel", "C")] } "X" "hi"
        (.success { error := none, ts := some "1.2", messages := none })).logs :=
  (standard_headers_spec { integmgr := none, config := [("channel", "C")] }).2.2 "X" "hi"
    (.success { error := none, ts := some "1.2", messages := none }) (by decide) (by decide)

/-- Updating one key leaves lookups of a different key unchanged. -/
theorem mapGet_mapSet_ne (m : List (String × String)) (k k2 v2 : String) (h : k2 ≠ k) :
    mapGet (mapSet m k2 v2) k = mapGet m k := by
  induction m with
  | nil => simp [mapSet, mapGet, h]
  | cons kv rest ih =>
    obtain ⟨a, b⟩ := kv
    by_cases ha : a = k2
    · subst ha
      simp [mapSet, mapGet, h]
    · by_cases hak : a = k <;> simp [mapSet, mapGet, ha, hak, ih, Ne.symm h]

/-- The persisted-configuration pass never changes a key that is already
bound: if `k` maps to `v` beforehand, it still does afterwards. -/
theorem mapGet_addMissing_of_some (entries : List (String × String))
    (m : List (String × String)) (k v : String) (h : mapGet m k = some v) :
    mapGet (addMissing m entries) k = some v := by
  induction entries generalizing m with
  | nil => simpa [addMissing] using h
  | cons kv rest ih =>
    obtain ⟨k2, v2⟩ := kv
    have hstep : mapGet (if mapHas m k2 then m else mapSet m k2 v2) k = some v := by
      by_cases hk2 : k2 = k
      · subst hk2
        have hhas : mapHas m k2 = true := by simp [mapHas, h]
        simp [hhas, h]
      · by_cases hhas : mapHas m k2 <;> simp [hhas, h, mapGet_mapSet_ne m k k2 v2 hk2]
    exact ih (if mapHas m k2 then m else mapSet m k2 v2) hstep

/-- C6: `init` merges the explicit object first and the persisted store
fills only missing keys — any key bound after the explicit merge keeps
that binding; on the specification's example, the explicit `apiKey` wins
and the persisted `channel` fills the gap. -/
theorem init_explicit_precedence :
    (∀ st initial persisted k v,
      mapGet (BrowserConfig.init st (some initial) none) k = some v →
      mapGet (BrowserConfig.init st (some initial) (some persisted)) k = some v) ∧
    BrowserConfig.get (BrowserConfig.init [] (some [("apiKey", "X")])
        (some [("apiKey", "Y"), ("channel", "C")])) "apiKey" = some "X" ∧
    BrowserConfig.get (BrowserConfig.init [] (some [("apiKey", "X")])
        (some [("apiKey", "Y"), ("channel", "C")])) "channel" = some "C" := by
  refine ⟨?_, by decide, by decide⟩
  intro st initial persisted k v h
  simp only [BrowserConfig.init] at h ⊢
  exact mapGet_addMissing_of_some persisted (setAll st initial) k v h

/-- Witness for C6 at the specification's example: the explicitly
initialized `apiKey` survives loading a persisted store that also binds
it. -/
theorem init_explicit_precedence_witness :
    mapGet (BrowserConfig.init [] (some [("apiKey", "X")])
      (some [("apiKey", "Y"), ("channel", "C")])) "apiKey" = some "X" :=
  init_explicit_precedence.1 [] [("apiKey", "X")] [("apiKey", "Y"), ("channel", "C")]
    "apiKey" "X" (by decide)

end SlackStudio
